import Mathlib

/-!
Verification development for the stellar-evolution core of the
Star-Simulation repository (`StarPhysics` in `src/main.py`).

The Python class is shallowly embedded: the mutable object becomes an
explicit record `StarPhysics` over the reals, each method becomes a pure
function from states to states, and `advance`/`update` composes the
time-step mutations with the property recomputation exactly in source
order.  Python float arithmetic is modelled by real arithmetic, `**` by
`Real.rpow` and `np.log10` by `Real.logb 10`.
-/

/-- The five evolutionary stages; the source stores them as strings
`"Protostar"`, `"Main Sequence"`, `"Red Giant"`, `"White Dwarf"`,
`"Supernova"` compared by equality. -/
inductive Stage where
  | Protostar
  | MainSequence
  | RedGiant
  | WhiteDwarf
  | Supernova
deriving DecidableEq

/-- The state of one simulated star: the attributes created in
`StarPhysics.__init__` (`src/main.py` lines 12-23), in source order. -/
@[ext]
structure StarPhysics where
  initial_mass : ℝ
  current_mass : ℝ
  h2_percentage : ℝ
  current_h2 : ℝ
  age : ℝ
  luminosity : ℝ
  temperature : ℝ
  radius : ℝ
  initial_radius : ℝ
  stage : Stage
  expansion_factor : ℝ

namespace StarSim

open Stage

/-- `get_formation_time` (lines 128-130): `50000 * (1 / initial_mass)`. -/
noncomputable def get_formation_time (s : StarPhysics) : ℝ :=
  50000 * (1 / s.initial_mass)

/-- `get_main_sequence_lifetime` (lines 167-169):
`1e10 * initial_mass ** -2.5 * (h2_percentage / 71)`. -/
noncomputable def get_main_sequence_lifetime (s : StarPhysics) : ℝ :=
  1e10 * s.initial_mass ^ (-2.5 : ℝ) * (s.h2_percentage / 71)

/-- The mass-luminosity relation of `update_stellar_properties`
(lines 36-41). -/
noncomputable def lum_of_mass (m : ℝ) : ℝ :=
  if m < 0.43 then 0.23 * m ^ (2.3 : ℝ)
  else if m < 2 then m ^ (4 : ℝ)
  else 1.4 * m ^ (3.5 : ℝ)

/-- The body of `calculate_base_radius` (lines 58-63) as a function of the
mass value. -/
noncomputable def base_radius_of (m : ℝ) : ℝ :=
  if m < 1.0 then m ^ (0.8 : ℝ) else m ^ (0.57 : ℝ)

/-- `calculate_base_radius` (lines 58-63). -/
noncomputable def calculate_base_radius (s : StarPhysics) : ℝ :=
  base_radius_of s.current_mass

/-- The expansion-factor adjustment of `handle_stage_transition`
(lines 119-126): `*= 2.0` on Main Sequence to Red Giant, else `*= 10.0`
on any transition into Supernova, else unchanged. -/
def transition_ef (old new : Stage) (ef : ℝ) : ℝ :=
  if old = MainSequence ∧ new = RedGiant then ef * 2.0
  else if new = Supernova then ef * 10.0
  else ef

/-- `handle_stage_transition` (lines 119-126): mutates only
`expansion_factor`. -/
def handle_stage_transition (old new : Stage) (s : StarPhysics) : StarPhysics :=
  { s with expansion_factor := transition_ef old new s.expansion_factor }

/-- The `new_stage` computation of `determine_stage` (lines 99-111) as a
pure function of the values it reads. -/
noncomputable def new_stage_rule (old : Stage) (age ft h2 mass : ℝ) : Stage :=
  if age < ft then Protostar
  else if h2 > 0.1 then MainSequence
  else if mass > 1.44 then
    (if old ≠ Supernova then RedGiant else Supernova)
  else if h2 ≤ 0.1 ∧ old ≠ WhiteDwarf then RedGiant
  else WhiteDwarf

/-- The `new_stage` value computed inside `determine_stage`. -/
noncomputable def determine_new_stage (s : StarPhysics) : Stage :=
  new_stage_rule s.stage s.age (get_formation_time s) s.current_h2 s.current_mass

/-- `determine_stage` (lines 95-117): computes `new_stage`, calls
`handle_stage_transition` when the stage changed, then stores the new
stage. -/
noncomputable def determine_stage (s : StarPhysics) : StarPhysics :=
  let new := determine_new_stage s
  let t := if s.stage ≠ new then handle_stage_transition s.stage new s else s
  { t with stage := new }

/-- `update_expansion_factor` (lines 65-93), the if/elif chain on the
(just determined) stage. -/
noncomputable def update_expansion_factor (s : StarPhysics) : StarPhysics :=
  if s.stage = Protostar then
    { s with expansion_factor := 2.0 - min 1.0 (s.age / get_formation_time s) }
  else if s.stage = MainSequence then
    (if get_main_sequence_lifetime s > 0 then
      { s with expansion_factor := 1.0 + min 1.0 (s.age / get_main_sequence_lifetime s) * 0.5 }
    else s)
  else if s.stage = RedGiant then
    { s with expansion_factor := min (if s.initial_mass > 1.44 then (100 : ℝ) else 50) (s.expansion_factor + 0.1) }
  else if s.stage = WhiteDwarf then
    { s with expansion_factor := max 0.01 (s.expansion_factor * 0.95) }
  else if s.stage = Supernova then
    { s with expansion_factor := s.expansion_factor * 1.5 }
  else s

/-- `update_stellar_properties` (lines 33-56), in source order:
luminosity, temperature, radius (from the expansion factor as it stands
on entry), then `determine_stage`, then `update_expansion_factor`. -/
noncomputable def update_stellar_properties (s : StarPhysics) : StarPhysics :=
  let s1 := { s with luminosity := lum_of_mass s.current_mass }
  let s2 := { s1 with temperature := 5778 * s1.luminosity ^ (0.25 : ℝ) }
  let s3 := { s2 with radius := calculate_base_radius s2 * s2.expansion_factor }
  update_expansion_factor (determine_stage s3)

/-- The state mutations of `update` (lines 132-145) that precede the call
to `update_stellar_properties`: age increment, Main-Sequence fuel burn
with clamp to `max 0`, Red-Giant mass loss. -/
noncomputable def apply_time_step (s : StarPhysics) (dt : ℝ) : StarPhysics :=
  let s1 := { s with age := s.age + dt }
  let s2 := if s1.stage = MainSequence then
      { s1 with current_h2 := max 0 (s1.current_h2 - 0.1 * s1.current_mass ^ (3.5 : ℝ) / 1e10 * dt) }
    else s1
  let s3 := if s2.stage = RedGiant then
      { s2 with current_mass := s2.current_mass - 1e-11 * s2.current_mass * dt }
    else s2
  s3

/-- `update` (lines 132-147): the advance operation. -/
noncomputable def update (s : StarPhysics) (dt : ℝ) : StarPhysics :=
  update_stellar_properties (apply_time_step s dt)

/-- `__init__` (lines 12-31): fields are initialised, one full property
recomputation runs, then the initial radius is recorded. -/
noncomputable def init (m h2 : ℝ) : StarPhysics :=
  let s0 : StarPhysics :=
    { initial_mass := m, current_mass := m, h2_percentage := h2,
      current_h2 := h2, age := 0, luminosity := 0, temperature := 0,
      radius := 0, initial_radius := 0, stage := Protostar,
      expansion_factor := 1.0 }
  let s1 := update_stellar_properties s0
  { s1 with initial_radius := s1.radius }

/-- `get_emission` (lines 163-165): `min(1.0, 0.2 + log10(luminosity)/5)`. -/
noncomputable def get_emission (s : StarPhysics) : ℝ :=
  min 1.0 (0.2 + Real.logb 10 s.luminosity / 5)

/-- Running a finite sequence of `advance` calls. -/
noncomputable def simulate (s : StarPhysics) (dts : List ℝ) : StarPhysics :=
  dts.foldl update s

/-- A model state reachable from a valid construction (positive mass,
fuel fraction in `[0, 100]`) by advance calls with non-negative
deltaTime. -/
def Reachable (s : StarPhysics) : Prop :=
  ∃ m h2 dts, 0 < m ∧ 0 ≤ h2 ∧ h2 ≤ 100 ∧ (∀ dt ∈ dts, (0 : ℝ) ≤ dt) ∧
    s = simulate (init m h2) dts

/-- After `update_stellar_properties` returns: the stage is a fixed point
of the transition rule, Main Sequence implies fuel above the threshold,
luminosity and temperature agree with the current mass, and the
expansion factor agrees with the Protostar / Main-Sequence formulas. -/
def Inv (s : StarPhysics) : Prop :=
  determine_new_stage s = s.stage ∧
  (s.stage = Stage.MainSequence → 0.1 < s.current_h2) ∧
  s.luminosity = lum_of_mass s.current_mass ∧
  s.temperature = 5778 * lum_of_mass s.current_mass ^ (0.25 : ℝ) ∧
  (s.stage = Stage.Protostar →
    s.expansion_factor = 2.0 - min 1.0 (s.age / get_formation_time s)) ∧
  (s.stage = Stage.MainSequence → get_main_sequence_lifetime s > 0 →
    s.expansion_factor = 1.0 + min 1.0 (s.age / get_main_sequence_lifetime s) * 0.5)

/-- The five-rule stage cascade exactly as the specification words it
(claim C3): `formationTime(m) = 50000/m`, fuel threshold `0.1`,
Chandrasekhar limit `1.44`, Supernova absorbing, White-Dwarf exclusion. -/
noncomputable def spec_stage_cascade (old : Stage)
    (age initialMass currentMass currentFuel : ℝ) : Stage :=
  if age < 50000 / initialMass then Stage.Protostar
  else if currentFuel > 0.1 then Stage.MainSequence
  else if currentMass > 1.44 then
    (if old = Stage.Supernova then Stage.Supernova else Stage.RedGiant)
  else if old ≠ Stage.WhiteDwarf then Stage.RedGiant
  else Stage.WhiteDwarf

/-- A state whose stage is Main Sequence while the main-sequence lifetime
is zero (initial fuel percentage 0), exercising the `ms_lifetime > 0`
guard of `update_expansion_factor`. -/
def msZeroState : StarPhysics :=
  { initial_mass := 1, current_mass := 1, h2_percentage := 0, current_h2 := 0,
    age := 0, luminosity := 0, temperature := 0, radius := 0, initial_radius := 0,
    stage := Stage.MainSequence, expansion_factor := 1 }

/-! ### Field-level behaviour of the individual methods -/

theorem uef_age (s : StarPhysics) : (update_expansion_factor s).age = s.age := by
  unfold update_expansion_factor; split_ifs <;> rfl

theorem uef_mass (s : StarPhysics) :
    (update_expansion_factor s).current_mass = s.current_mass := by
  unfold update_expansion_factor; split_ifs <;> rfl

theorem uef_h2 (s : StarPhysics) :
    (update_expansion_factor s).current_h2 = s.current_h2 := by
  unfold update_expansion_factor; split_ifs <;> rfl

theorem uef_im (s : StarPhysics) :
    (update_expansion_factor s).initial_mass = s.initial_mass := by
  unfold update_expansion_factor; split_ifs <;> rfl

theorem uef_h2p (s : StarPhysics) :
    (update_expansion_factor s).h2_percentage = s.h2_percentage := by
  unfold update_expansion_factor; split_ifs <;> rfl

theorem uef_lum (s : StarPhysics) :
    (update_expansion_factor s).luminosity = s.luminosity := by
  unfold update_expansion_factor; split_ifs <;> rfl

theorem uef_temp (s : StarPhysics) :
    (update_expansion_factor s).temperature = s.temperature := by
  unfold update_expansion_factor; split_ifs <;> rfl

theorem uef_radius (s : StarPhysics) :
    (update_expansion_factor s).radius = s.radius := by
  unfold update_expansion_factor; split_ifs <;> rfl

theorem uef_ir (s : StarPhysics) :
    (update_expansion_factor s).initial_radius = s.initial_radius := by
  unfold update_expansion_factor; split_ifs <;> rfl

theorem uef_stage (s : StarPhysics) :
    (update_expansion_factor s).stage = s.stage := by
  unfold update_expansion_factor; split_ifs <;> rfl

theorem uef_ef_protostar (s : StarPhysics) (h : s.stage = Stage.Protostar) :
    (update_expansion_factor s).expansion_factor
      = 2.0 - min 1.0 (s.age / get_formation_time s) := by
  unfold update_expansion_factor; rw [if_pos h]

theorem uef_ef_ms_pos (s : StarPhysics) (h : s.stage = Stage.MainSequence)
    (hp : get_main_sequence_lifetime s > 0) :
    (update_expansion_factor s).expansion_factor
      = 1.0 + min 1.0 (s.age / get_main_sequence_lifetime s) * 0.5 := by
  unfold update_expansion_factor
  rw [if_neg (by simp [h]), if_pos h, if_pos hp]

theorem uef_eq_ms_nonpos (s : StarPhysics) (h : s.stage = Stage.MainSequence)
    (hp : ¬ get_main_sequence_lifetime s > 0) :
    update_expansion_factor s = s := by
  unfold update_expansion_factor
  rw [if_neg (by simp [h]), if_pos h, if_neg hp]

theorem uef_ef_redgiant (s : StarPhysics) (h : s.stage = Stage.RedGiant) :
    (update_expansion_factor s).expansion_factor
      = min (if s.initial_mass > 1.44 then (100 : ℝ) else 50) (s.expansion_factor + 0.1) := by
  unfold update_expansion_factor
  rw [if_neg (by simp [h]), if_neg (by simp [h]), if_pos h]

theorem det_age (s : StarPhysics) : (determine_stage s).age = s.age := by
  simp only [determine_stage, handle_stage_transition]; split_ifs <;> rfl

theorem det_mass (s : StarPhysics) :
    (determine_stage s).current_mass = s.current_mass := by
  simp only [determine_stage, handle_stage_transition]; split_ifs <;> rfl

theorem det_h2 (s : StarPhysics) :
    (determine_stage s).current_h2 = s.current_h2 := by
  simp only [determine_stage, handle_stage_transition]; split_ifs <;> rfl

theorem det_im (s : StarPhysics) :
    (determine_stage s).initial_mass = s.initial_mass := by
  simp only [determine_stage, handle_stage_transition]; split_ifs <;> rfl

theorem det_h2p (s : StarPhysics) :
    (determine_stage s).h2_percentage = s.h2_percentage := by
  simp only [determine_stage, handle_stage_transition]; split_ifs <;> rfl

theorem det_lum (s : StarPhysics) :
    (determine_stage s).luminosity = s.luminosity := by
  simp only [determine_stage, handle_stage_transition]; split_ifs <;> rfl

theorem det_temp (s : StarPhysics) :
    (determine_stage s).temperature = s.temperature := by
  simp only [determine_stage, handle_stage_transition]; split_ifs <;> rfl

theorem det_radius (s : StarPhysics) :
    (determine_stage s).radius = s.radius := by
  simp only [determine_stage, handle_stage_transition]; split_ifs <;> rfl

theorem det_ir (s : StarPhysics) :
    (determine_stage s).initial_radius = s.initial_radius := by
  simp only [determine_stage, handle_stage_transition]; split_ifs <;> rfl

theorem det_stage (s : StarPhysics) :
    (determine_stage s).stage = determine_new_stage s := rfl

theorem det_ef_of_eq (s : StarPhysics) (h : s.stage = determine_new_stage s) :
    (determine_stage s).expansion_factor = s.expansion_factor := by
  simp only [determine_stage, handle_stage_transition]
  rw [if_neg (by simp [h])]

theorem ats_age (s : StarPhysics) (dt : ℝ) :
    (apply_time_step s dt).age = s.age + dt := by
  simp only [apply_time_step]; split_ifs <;> rfl

theorem ats_mass (s : StarPhysics) (dt : ℝ) :
    (apply_time_step s dt).current_mass
      = if s.stage = Stage.RedGiant then s.current_mass - 1e-11 * s.current_mass * dt
        else s.current_mass := by
  simp only [apply_time_step]; split_ifs <;> simp_all

theorem ats_h2 (s : StarPhysics) (dt : ℝ) :
    (apply_time_step s dt).current_h2
      = if s.stage = Stage.MainSequence then
          max 0 (s.current_h2 - 0.1 * s.current_mass ^ (3.5 : ℝ) / 1e10 * dt)
        else s.current_h2 := by
  simp only [apply_time_step]; split_ifs <;> simp_all

theorem ats_stage (s : StarPhysics) (dt : ℝ) :
    (apply_time_step s dt).stage = s.stage := by
  simp only [apply_time_step]; split_ifs <;> rfl

theorem ats_im (s : StarPhysics) (dt : ℝ) :
    (apply_time_step s dt).initial_mass = s.initial_mass := by
  simp only [apply_time_step]; split_ifs <;> rfl

theorem ats_h2p (s : StarPhysics) (dt : ℝ) :
    (apply_time_step s dt).h2_percentage = s.h2_percentage := by
  simp only [apply_time_step]; split_ifs <;> rfl

theorem ats_ef (s : StarPhysics) (dt : ℝ) :
    (apply_time_step s dt).expansion_factor = s.expansion_factor := by
  simp only [apply_time_step]; split_ifs <;> rfl

theorem ats_lum (s : StarPhysics) (dt : ℝ) :
    (apply_time_step s dt).luminosity = s.luminosity := by
  simp only [apply_time_step]; split_ifs <;> rfl

theorem ats_temp (s : StarPhysics) (dt : ℝ) :
    (apply_time_step s dt).temperature = s.temperature := by
  simp only [apply_time_step]; split_ifs <;> rfl

theorem ats_radius (s : StarPhysics) (dt : ℝ) :
    (apply_time_step s dt).radius = s.radius := by
  simp only [apply_time_step]; split_ifs <;> rfl

theorem ats_ir (s : StarPhysics) (dt : ℝ) :
    (apply_time_step s dt).initial_radius = s.initial_radius := by
  simp only [apply_time_step]; split_ifs <;> rfl

/-! ### Field-level behaviour of the full recomputation -/

theorem usp_age (s : StarPhysics) : (update_stellar_properties s).age = s.age := by
  simp only [update_stellar_properties]; rw [uef_age, det_age]

theorem usp_mass (s : StarPhysics) :
    (update_stellar_properties s).current_mass = s.current_mass := by
  simp only [update_stellar_properties]; rw [uef_mass, det_mass]

theorem usp_h2 (s : StarPhysics) :
    (update_stellar_properties s).current_h2 = s.current_h2 := by
  simp only [update_stellar_properties]; rw [uef_h2, det_h2]

theorem usp_im (s : StarPhysics) :
    (update_stellar_properties s).initial_mass = s.initial_mass := by
  simp only [update_stellar_properties]; rw [uef_im, det_im]

theorem usp_h2p (s : StarPhysics) :
    (update_stellar_properties s).h2_percentage = s.h2_percentage := by
  simp only [update_stellar_properties]; rw [uef_h2p, det_h2p]

theorem usp_ir (s : StarPhysics) :
    (update_stellar_properties s).initial_radius = s.initial_radius := by
  simp only [update_stellar_properties]; rw [uef_ir, det_ir]

theorem usp_lum (s : StarPhysics) :
    (update_stellar_properties s).luminosity = lum_of_mass s.current_mass := by
  simp only [update_stellar_properties]; rw [uef_lum, det_lum]

theorem usp_temp (s : StarPhysics) :
    (update_stellar_properties s).temperature
      = 5778 * lum_of_mass s.current_mass ^ (0.25 : ℝ) := by
  simp only [update_stellar_properties]; rw [uef_temp, det_temp]

theorem usp_radius (s : StarPhysics) :
    (update_stellar_properties s).radius
      = calculate_base_radius s * s.expansion_factor := by
  simp only [update_stellar_properties]; rw [uef_radius, det_radius]; rfl

theorem usp_stage (s : StarPhysics) :
    (update_stellar_properties s).stage = determine_new_stage s := by
  simp only [update_stellar_properties]; rw [uef_stage, det_stage]; rfl

/-! ### Properties of the stage transition rule -/

theorem nsr_idem (old : Stage) (age ft h2 mass : ℝ) :
    new_stage_rule (new_stage_rule old age ft h2 mass) age ft h2 mass
      = new_stage_rule old age ft h2 mass := by
  unfold new_stage_rule
  by_cases h1 : age < ft
  · simp [h1]
  by_cases h2c : h2 > 0.1
  · simp [h1, h2c]
  by_cases h3 : mass > 1.44
  · by_cases h4 : old = Stage.Supernova <;>
      simp [h1, h2c, h3, h4, not_lt.mp h2c]
  · by_cases h5 : old = Stage.WhiteDwarf <;>
      simp [h1, h2c, h3, h5, not_lt.mp h2c]

theorem nsr_ms (old : Stage) (age ft h2 mass : ℝ)
    (h : new_stage_rule old age ft h2 mass = Stage.MainSequence) :
    0.1 < h2 := by
  unfold new_stage_rule at h
  split_ifs at h with h1 h2c h3 h4 h5 <;> first | exact h2c | simp_all

theorem nsr_sn (old : Stage) (age ft h2 mass : ℝ)
    (h : new_stage_rule old age ft h2 mass = Stage.Supernova) :
    old = Stage.Supernova := by
  unfold new_stage_rule at h
  split_ifs at h with h1 h2c h3 h4 h5 <;>
    first | exact not_not.mp h4 | simp_all

/-! ### Field-level behaviour of `update` and `init` -/

theorem update_age (s : StarPhysics) (dt : ℝ) :
    (update s dt).age = s.age + dt := by
  unfold update; rw [usp_age, ats_age]

theorem update_im (s : StarPhysics) (dt : ℝ) :
    (update s dt).initial_mass = s.initial_mass := by
  unfold update; rw [usp_im, ats_im]

theorem update_h2p (s : StarPhysics) (dt : ℝ) :
    (update s dt).h2_percentage = s.h2_percentage := by
  unfold update; rw [usp_h2p, ats_h2p]

theorem update_mass (s : StarPhysics) (dt : ℝ) :
    (update s dt).current_mass
      = if s.stage = Stage.RedGiant then s.current_mass - 1e-11 * s.current_mass * dt
        else s.current_mass := by
  unfold update; rw [usp_mass, ats_mass]

theorem update_h2 (s : StarPhysics) (dt : ℝ) :
    (update s dt).current_h2
      = if s.stage = Stage.MainSequence then
          max 0 (s.current_h2 - 0.1 * s.current_mass ^ (3.5 : ℝ) / 1e10 * dt)
        else s.current_h2 := by
  unfold update; rw [usp_h2, ats_h2]

theorem update_stage (s : StarPhysics) (dt : ℝ) :
    (update s dt).stage
      = new_stage_rule s.stage (s.age + dt) (50000 * (1 / s.initial_mass))
          (if s.stage = Stage.MainSequence then
            max 0 (s.current_h2 - 0.1 * s.current_mass ^ (3.5 : ℝ) / 1e10 * dt)
          else s.current_h2)
          (if s.stage = Stage.RedGiant then
            s.current_mass - 1e-11 * s.current_mass * dt
          else s.current_mass) := by
  unfold update
  rw [usp_stage]
  unfold determine_new_stage get_formation_time
  rw [ats_stage, ats_age, ats_im, ats_h2, ats_mass]

theorem update_radius (s : StarPhysics) (dt : ℝ) :
    (update s dt).radius
      = calculate_base_radius (update s dt) * s.expansion_factor := by
  unfold update
  rw [usp_radius]
  unfold calculate_base_radius
  rw [usp_mass, ats_ef]

theorem init_age (m h2 : ℝ) : (init m h2).age = 0 := by
  unfold init; rw [usp_age]

theorem init_mass (m h2 : ℝ) : (init m h2).current_mass = m := by
  unfold init; rw [usp_mass]

theorem init_h2 (m h2 : ℝ) : (init m h2).current_h2 = h2 := by
  unfold init; rw [usp_h2]

theorem init_im (m h2 : ℝ) : (init m h2).initial_mass = m := by
  unfold init; rw [usp_im]

theorem init_h2p (m h2 : ℝ) : (init m h2).h2_percentage = h2 := by
  unfold init; rw [usp_h2p]

theorem init_lum (m h2 : ℝ) : (init m h2).luminosity = lum_of_mass m := by
  unfold init; rw [usp_lum]

theorem init_stage (m h2 : ℝ) :
    (init m h2).stage = new_stage_rule Stage.Protostar 0 (50000 * (1 / m)) h2 m := by
  unfold init
  rw [usp_stage]
  unfold determine_new_stage get_formation_time
  rfl

theorem init_radius (m h2 : ℝ) : (init m h2).radius = base_radius_of m := by
  unfold init
  rw [usp_radius]
  unfold calculate_base_radius
  norm_num

/-! ### The invariant holding after every recomputation -/

theorem usp_ef_protostar (s : StarPhysics)
    (h : determine_new_stage s = Stage.Protostar) :
    (update_stellar_properties s).expansion_factor
      = 2.0 - min 1.0 (s.age / get_formation_time s) := by
  simp only [update_stellar_properties]
  rw [uef_ef_protostar _ (by rw [det_stage]; exact h)]
  rw [det_age]
  unfold get_formation_time
  rw [det_im]

theorem usp_ef_ms_pos (s : StarPhysics)
    (h : determine_new_stage s = Stage.MainSequence)
    (hp : get_main_sequence_lifetime s > 0) :
    (update_stellar_properties s).expansion_factor
      = 1.0 + min 1.0 (s.age / get_main_sequence_lifetime s) * 0.5 := by
  simp only [update_stellar_properties]
  have hml : ∀ t : StarPhysics, t.initial_mass = s.initial_mass →
      t.h2_percentage = s.h2_percentage →
      get_main_sequence_lifetime t = get_main_sequence_lifetime s := by
    intro t h1 h2
    unfold get_main_sequence_lifetime
    rw [h1, h2]
  rw [uef_ef_ms_pos _ (by rw [det_stage]; exact h)
    (by rw [hml _ (by rw [det_im]) (by rw [det_h2p])]; exact hp)]
  rw [det_age, hml _ (by rw [det_im]) (by rw [det_h2p])]

theorem usp_ef_ms_nonpos (s : StarPhysics)
    (h : determine_new_stage s = Stage.MainSequence)
    (hfix : s.stage = determine_new_stage s)
    (hp : ¬ get_main_sequence_lifetime s > 0) :
    (update_stellar_properties s).expansion_factor = s.expansion_factor := by
  simp only [update_stellar_properties]
  have hml : ∀ t : StarPhysics, t.initial_mass = s.initial_mass →
      t.h2_percentage = s.h2_percentage →
      get_main_sequence_lifetime t = get_main_sequence_lifetime s := by
    intro t h1 h2
    unfold get_main_sequence_lifetime
    rw [h1, h2]
  rw [uef_eq_ms_nonpos _ (by rw [det_stage]; exact h)
    (by rw [hml _ (by rw [det_im]) (by rw [det_h2p])]; exact hp)]
  exact det_ef_of_eq _ hfix

theorem inv_usp (s : StarPhysics) : Inv (update_stellar_properties s) := by
  have hstage := usp_stage s
  have hage := usp_age s
  have hmass := usp_mass s
  have hh2 := usp_h2 s
  have him := usp_im s
  have hh2p := usp_h2p s
  have hft : get_formation_time (update_stellar_properties s) = get_formation_time s := by
    unfold get_formation_time; rw [him]
  have hms : get_main_sequence_lifetime (update_stellar_properties s)
      = get_main_sequence_lifetime s := by
    unfold get_main_sequence_lifetime; rw [him, hh2p]
  refine ⟨?_, ?_, ?_, ?_, ?_, ?_⟩
  · unfold determine_new_stage
    rw [hstage, hage, hft, hh2, hmass]
    unfold determine_new_stage
    exact nsr_idem _ _ _ _ _
  · intro h
    rw [hh2]
    exact nsr_ms _ _ _ _ _ (hstage ▸ h)
  · rw [usp_lum, hmass]
  · rw [usp_temp, hmass]
  · intro h
    rw [usp_ef_protostar s (hstage ▸ h), hage, hft]
  · intro h hp
    rw [usp_ef_ms_pos s (hstage ▸ h) (hms ▸ hp), hage, hms]

theorem inv_update (s : StarPhysics) (dt : ℝ) : Inv (update s dt) :=
  inv_usp _

theorem inv_init (m h2 : ℝ) : Inv (init m h2) := by
  have h := inv_usp (StarPhysics.mk m m h2 h2 0 0 0 0 0 Stage.Protostar 1.0)
  exact h

theorem inv_simulate (dts : List ℝ) :
    ∀ s : StarPhysics, Inv s → Inv (simulate s dts) := by
  induction dts with
  | nil => intro s h; exact h
  | cons d rest ih =>
    intro s h
    have : simulate s (d :: rest) = simulate (update s d) rest := rfl
    rw [this]
    exact ih _ (inv_update s d)

theorem reachable_inv (s : StarPhysics) (h : Reachable s) : Inv s := by
  obtain ⟨m, h2, dts, _, _, _, _, rfl⟩ := h
  exact inv_simulate dts _ (inv_init m h2)

/-! ### `advance(0)` behaviour on recomputed states -/

theorem ef_preserved (s : StarPhysics) (hInv : Inv s)
    (hst : s.stage = Stage.Protostar ∨ s.stage = Stage.MainSequence) :
    (update_stellar_properties s).expansion_factor = s.expansion_factor := by
  obtain ⟨h1, h2, h3, h4, h5, h6⟩ := hInv
  rcases hst with hp | hm
  · rw [usp_ef_protostar s (h1.trans hp), h5 hp]
  · by_cases hpos : get_main_sequence_lifetime s > 0
    · rw [usp_ef_ms_pos s (h1.trans hm) hpos, h6 hm hpos]
    · exact usp_ef_ms_nonpos s (h1.trans hm) h1.symm hpos

theorem apply_zero (s : StarPhysics)
    (h : s.stage = Stage.MainSequence → 0.1 < s.current_h2) :
    apply_time_step s 0 = s := by
  refine StarPhysics.ext ?_ ?_ ?_ ?_ ?_ ?_ ?_ ?_ ?_ ?_ ?_
  · rw [ats_im]
  · rw [ats_mass]; split_ifs with hc
    · ring
    · rfl
  · rw [ats_h2p]
  · rw [ats_h2]; split_ifs with hc
    · have h01 := h hc
      rw [mul_zero, sub_zero]
      exact max_eq_right (by linarith)
    · rfl
  · rw [ats_age, add_zero]
  · rw [ats_lum]
  · rw [ats_temp]
  · rw [ats_radius]
  · rw [ats_ir]
  · rw [ats_stage]
  · rw [ats_ef]

theorem update_zero (s : StarPhysics)
    (h : s.stage = Stage.MainSequence → 0.1 < s.current_h2) :
    update s 0 = update_stellar_properties s := by
  unfold update
  rw [apply_zero s h]

theorem usp_fix (s : StarPhysics) (hInv : Inv s)
    (hst : s.stage = Stage.Protostar ∨ s.stage = Stage.MainSequence) :
    update_stellar_properties (update_stellar_properties s)
      = update_stellar_properties s := by
  have hInvR := inv_usp s
  have hRstage : (update_stellar_properties s).stage = s.stage := by
    rw [usp_stage]; exact hInv.1
  have hstR : (update_stellar_properties s).stage = Stage.Protostar ∨
      (update_stellar_properties s).stage = Stage.MainSequence := by
    rw [hRstage]; exact hst
  have hef : (update_stellar_properties s).expansion_factor = s.expansion_factor :=
    ef_preserved s hInv hst
  refine StarPhysics.ext ?_ ?_ ?_ ?_ ?_ ?_ ?_ ?_ ?_ ?_ ?_
  · rw [usp_im]
  · rw [usp_mass]
  · rw [usp_h2p]
  · rw [usp_h2]
  · rw [usp_age]
  · rw [usp_lum]
    exact hInvR.2.2.1.symm
  · rw [usp_temp]
    exact hInvR.2.2.2.1.symm
  · rw [usp_radius, usp_radius s]
    unfold calculate_base_radius
    rw [usp_mass, hef]
  · rw [usp_ir]
  · rw [usp_stage]
    exact hInvR.1
  · exact ef_preserved _ hInvR hstR

/-! ### Evaluation at concrete inputs -/

theorem init_ef_protostar (m h2 : ℝ)
    (h : new_stage_rule Stage.Protostar 0 (50000 * (1 / m)) h2 m = Stage.Protostar) :
    (init m h2).expansion_factor = 2.0 - min 1.0 (0 / (50000 * (1 / m))) := by
  have hh := usp_ef_protostar (StarPhysics.mk m m h2 h2 0 0 0 0 0 Stage.Protostar 1.0)
    (by unfold determine_new_stage get_formation_time; exact h)
  exact hh

theorem base_radius_of_one : base_radius_of 1 = 1 := by
  unfold base_radius_of
  rw [if_neg (by norm_num)]
  exact Real.one_rpow _

theorem run1_stage : (init 1 71).stage = Stage.Protostar := by
  rw [init_stage]
  norm_num [new_stage_rule]

theorem run1_ef : (init 1 71).expansion_factor = 2 := by
  rw [init_ef_protostar]
  · norm_num
  · norm_num [new_stage_rule]

theorem run1_radius : (init 1 71).radius = 1 := by
  rw [init_radius, base_radius_of_one]

theorem run2_stage : (init 2 0).stage = Stage.Protostar := by
  rw [init_stage]
  norm_num [new_stage_rule]

theorem run2_mass : (init 2 0).current_mass = 2 := init_mass 2 0

theorem run2b_age : (update (init 2 0) 25000).age = 25000 := by
  rw [update_age, init_age]
  norm_num

theorem run2b_mass : (update (init 2 0) 25000).current_mass = 2 := by
  rw [update_mass, run2_stage, run2_mass]
  simp

theorem run2b_h2 : (update (init 2 0) 25000).current_h2 = 0 := by
  rw [update_h2, run2_stage, init_h2]
  simp

theorem run2b_im : (update (init 2 0) 25000).initial_mass = 2 := by
  rw [update_im, init_im]

theorem run2b_stage : (update (init 2 0) 25000).stage = Stage.RedGiant := by
  rw [update_stage, run2_stage, init_age, init_im, init_h2, init_mass]
  simp only [new_stage_rule, reduceCtorEq, if_false]
  norm_num
  try decide

theorem run2c_mass : (update (update (init 2 0) 25000) 2e11).current_mass = -2 := by
  rw [update_mass, run2b_stage, run2b_mass]
  norm_num

theorem run2c_h2 : (update (update (init 2 0) 25000) 2e11).current_h2 = 0 := by
  rw [update_h2, run2b_stage, run2b_h2]
  simp

theorem run2c_stage :
    (update (update (init 2 0) 25000) 2e11).stage = Stage.RedGiant := by
  rw [update_stage, run2b_stage, run2b_age, run2b_im, run2b_h2, run2b_mass]
  simp only [new_stage_rule, reduceCtorEq, if_false]
  norm_num
  try decide

/-! ### Helper invariants for individual claims -/

theorem update_stage_ne_sn (s : StarPhysics) (dt : ℝ)
    (h : s.stage ≠ Stage.Supernova) : (update s dt).stage ≠ Stage.Supernova := by
  rw [update_stage]
  intro hc
  exact h (nsr_sn _ _ _ _ _ hc)

theorem sim_ne_sn (dts : List ℝ) :
    ∀ s : StarPhysics, s.stage ≠ Stage.Supernova →
      (simulate s dts).stage ≠ Stage.Supernova := by
  induction dts with
  | nil => intro s h; exact h
  | cons d rest ih =>
    intro s h
    exact ih (update s d) (update_stage_ne_sn s d h)

theorem init_stage_ne_sn (m h2 : ℝ) : (init m h2).stage ≠ Stage.Supernova := by
  rw [init_stage]
  intro hc
  exact absurd (nsr_sn _ _ _ _ _ hc) (by simp)

theorem update_mass_pos (s : StarPhysics) (dt : ℝ) (h : 0 < s.current_mass)
    (hdt : dt < 1e11) : 0 < (update s dt).current_mass := by
  rw [update_mass]
  split_ifs with hc
  · have he : s.current_mass - 1e-11 * s.current_mass * dt
        = s.current_mass * (1 - 1e-11 * dt) := by ring
    rw [he]
    apply mul_pos h
    nlinarith
  · exact h

theorem sim_mass_pos (dts : List ℝ) :
    ∀ s : StarPhysics, 0 < s.current_mass → (∀ dt ∈ dts, 0 ≤ dt ∧ dt < 1e11) →
      0 < (simulate s dts).current_mass := by
  induction dts with
  | nil => intro s h _; exact h
  | cons d rest ih =>
    intro s h hd
    refine ih (update s d) ?_ ?_
    · exact update_mass_pos s d h (hd d (List.mem_cons_self d rest)).2
    · intro dt hdt
      exact hd dt (List.mem_cons_of_mem d hdt)

theorem sim_im (dts : List ℝ) :
    ∀ s : StarPhysics, (simulate s dts).initial_mass = s.initial_mass := by
  induction dts with
  | nil => intro s; rfl
  | cons d rest ih =>
    intro s
    have h1 : simulate s (d :: rest) = simulate (update s d) rest := rfl
    rw [h1, ih, update_im]

theorem sim_h2p (dts : List ℝ) :
    ∀ s : StarPhysics, (simulate s dts).h2_percentage = s.h2_percentage := by
  induction dts with
  | nil => intro s; rfl
  | cons d rest ih =>
    intro s
    have h1 : simulate s (d :: rest) = simulate (update s d) rest := rfl
    rw [h1, ih, update_h2p]

theorem lum_of_mass_half : lum_of_mass 0.5 = 0.0625 := by
  unfold lum_of_mass
  rw [if_neg (by norm_num), if_pos (by norm_num)]
  rw [show ((4 : ℝ)) = ((4 : ℕ) : ℝ) by norm_num, Real.rpow_natCast]
  norm_num

theorem emission_neg_of_small (s : StarPhysics) (h0 : 0 < s.luminosity)
    (h1 : s.luminosity < 1 / 10) : get_emission s < 0 := by
  unfold get_emission
  have hlog10 : (0 : ℝ) < Real.log 10 := Real.log_pos (by norm_num)
  have hlt : Real.log s.luminosity < Real.log (1 / 10) := Real.log_lt_log h0 h1
  have hinv : Real.log ((1 : ℝ) / 10) = -Real.log 10 := by
    rw [one_div, Real.log_inv]
  have hb : Real.logb 10 s.luminosity < -1 := by
    unfold Real.logb
    rw [div_lt_iff hlog10]
    nlinarith
  have : (0.2 : ℝ) + Real.logb 10 s.luminosity / 5 < 0 := by
    nlinarith
  exact lt_of_le_of_lt (min_le_right _ _) this

/-! ## The claims -/

/-- Claim C1, counterexample: already at construction (mass 1, fuel 71) the
radius equals baseRadius times the expansion factor as it stood before the
stage/expansion update (1.0), while the expansion factor itself ends the
call at 2.0 — so the radius is NOT baseRadius times the expansion factor
that results from the same call. -/
theorem claim_C1_cex :
    (init 1 71).radius
      ≠ calculate_base_radius (init 1 71) * (init 1 71).expansion_factor := by
  rw [run1_radius, run1_ef]
  unfold calculate_base_radius
  rw [init_mass, base_radius_of_one]
  norm_num

/-- Claim C1, amended: after construction and after every `advance`, the
radius equals baseRadius of the latest currentMass multiplied by the
expansionFactor the state had at the START of that call's recomputation
(1.0 at construction), not by the expansionFactor produced by the same
call's stage/expansion update. -/
theorem claim_C1 :
    (∀ m h2 : ℝ, (init m h2).radius = calculate_base_radius (init m h2)) ∧
    (∀ (s : StarPhysics) (dt : ℝ),
      (update s dt).radius
        = calculate_base_radius (update s dt) * s.expansion_factor) := by
  constructor
  · intro m h2
    rw [init_radius]
    unfold calculate_base_radius
    rw [init_mass]
  · intro s dt
    exact update_radius s dt

/-- Claim C2: `determine_stage` assigns Supernova only when the previous
stage is already Supernova, and the initial stage is Protostar, so no
reachable state is ever in the Supernova stage — the Supernova branch is
dead code and the stage claimed reachable for high-mass stars is not. -/
theorem claim_C2 (s : StarPhysics) (h : Reachable s) :
    s.stage ≠ Stage.Supernova := by
  obtain ⟨m, h2, dts, _, _, _, _, rfl⟩ := h
  exact sim_ne_sn dts _ (init_stage_ne_sn m h2)

/-- Claim C2, witness: the high-mass fuel-depleted star of Scenario C is
reachable and is not in the Supernova stage. -/
theorem claim_C2_witness :
    Reachable (init 2 0) ∧ (init 2 0).stage ≠ Stage.Supernova := by
  have hr : Reachable (init 2 0) :=
    ⟨2, 0, [], by norm_num, le_refl 0, by norm_num,
      by intro dt hdt; simp at hdt, rfl⟩
  exact ⟨hr, claim_C2 _ hr⟩

/-- Claim C3: the stage computed by the recomputation equals the five-rule
cascade over (previous stage, age, currentMass, currentFuelFraction) as
the specification words it, with `formationTime(m) = 50000/m`. -/
theorem claim_C3 (s : StarPhysics) :
    (update_stellar_properties s).stage
      = spec_stage_cascade s.stage s.age s.initial_mass s.current_mass s.current_h2 := by
  rw [usp_stage]
  unfold determine_new_stage get_formation_time new_stage_rule spec_stage_cascade
  rw [mul_one_div]
  by_cases h1 : s.age < 50000 / s.initial_mass
  · simp [h1]
  by_cases h2c : s.current_h2 > 0.1
  · simp [h1, h2c]
  by_cases h3 : s.current_mass > 1.44
  · by_cases h4 : s.stage = Stage.Supernova <;> simp [h1, h2c, h3, h4]
  · by_cases h5 : s.stage = Stage.WhiteDwarf <;>
      simp [h1, h2c, h3, h5, not_lt.mp h2c]

/-- Claim C4, counterexample: on the freshly constructed star (mass 1,
fuel 71) a single `advance(0)` changes the radius from 1.0 to 2.0, because
the radius is recomputed from the expansion factor that the construction
call had already advanced to 2.0 — so `advance(0)` does not leave all
properties unchanged. -/
theorem claim_C4_cex : (update (init 1 71) 0).radius ≠ (init 1 71).radius := by
  rw [update_radius, run1_radius, run1_ef]
  unfold calculate_base_radius
  rw [update_mass, run1_stage]
  simp only [reduceCtorEq, if_false]
  rw [init_mass, base_radius_of_one]
  norm_num

/-- Claim C4, amended: on every reachable state `advance(0)` leaves age,
currentMass, currentFuelFraction, stage, luminosity and temperature
unchanged; moreover when the stage is Protostar or MainSequence a second
`advance(0)` changes nothing at all (the radius settles after one call).
In RedGiant, WhiteDwarf and Supernova the per-tick expansion-factor update
still fires on `advance(0)`, so full idempotence fails there. -/
theorem claim_C4 (s : StarPhysics) (h : Reachable s) :
    (update s 0).age = s.age ∧ (update s 0).current_mass = s.current_mass ∧
    (update s 0).current_h2 = s.current_h2 ∧ (update s 0).stage = s.stage ∧
    (update s 0).luminosity = s.luminosity ∧
    (update s 0).temperature = s.temperature ∧
    ((s.stage = Stage.Protostar ∨ s.stage = Stage.MainSequence) →
      update (update s 0) 0 = update s 0) := by
  have hInv := reachable_inv s h
  obtain ⟨h1, h2, h3, h4, h5, h6⟩ := hInv
  have h0 : update s 0 = update_stellar_properties s := update_zero s h2
  refine ⟨?_, ?_, ?_, ?_, ?_, ?_, ?_⟩
  · rw [h0, usp_age]
  · rw [h0, usp_mass]
  · rw [h0, usp_h2]
  · rw [h0, usp_stage]; exact h1
  · rw [h0, usp_lum]; exact h3.symm
  · rw [h0, usp_temp]; exact h4.symm
  · intro hst
    have hInvR := inv_usp s
    rw [h0, update_zero _ hInvR.2.1, usp_fix s ⟨h1, h2, h3, h4, h5, h6⟩ hst]

/-- Claim C4, witness: the amended statement evaluated on the freshly
constructed mass-1 star, which is reachable and in the Protostar stage. -/
theorem claim_C4_witness :
    Reachable (init 1 71) ∧
    ((update (init 1 71) 0).age = (init 1 71).age ∧
     (update (init 1 71) 0).current_mass = (init 1 71).current_mass ∧
     (update (init 1 71) 0).current_h2 = (init 1 71).current_h2 ∧
     (update (init 1 71) 0).stage = (init 1 71).stage ∧
     (update (init 1 71) 0).luminosity = (init 1 71).luminosity ∧
     (update (init 1 71) 0).temperature = (init 1 71).temperature ∧
     (((init 1 71).stage = Stage.Protostar ∨
        (init 1 71).stage = Stage.MainSequence) →
       update (update (init 1 71) 0) 0 = update (init 1 71) 0)) := by
  have hr : Reachable (init 1 71) :=
    ⟨1, 71, [], by norm_num, by norm_num, by norm_num,
      by intro dt hdt; simp at hdt, rfl⟩
  exact ⟨hr, claim_C4 _ hr⟩

/-- Claim C5, counterexample: starting from mass 2, fuel 0, one advance of
25000 years reaches the Red Giant stage, and a single further advance with
deltaTime 1e11 drives currentMass to exactly 0 — not strictly positive,
although the initial mass was positive and every deltaTime non-negative. -/
theorem claim_C5_cex :
    ¬ 0 < (update (update (init 2 0) 25000) 1e11).current_mass := by
  rw [update_mass, run2b_stage, run2b_mass]
  simp only [if_pos]
  norm_num

/-- Claim C5, amended: currentMass stays strictly positive provided every
deltaTime is non-negative AND below 1e11, so that the Red-Giant mass-loss
factor `1 - 1e-11 * dt` stays positive; without the bound a single huge
deltaTime in the Red Giant stage drives the mass to zero or below. -/
theorem claim_C5 (m h2 : ℝ) (dts : List ℝ) (hm : 0 < m)
    (hdts : ∀ dt ∈ dts, 0 ≤ dt ∧ dt < 1e11) :
    0 < (simulate (init m h2) dts).current_mass := by
  apply sim_mass_pos dts _ _ hdts
  rw [init_mass]
  exact hm

/-- Claim C5, witness: the amended statement evaluated at mass 1, fuel 71,
one advance of 5 years. -/
theorem claim_C5_witness :
    0 < (1 : ℝ) ∧ (∀ dt ∈ ([5] : List ℝ), 0 ≤ dt ∧ dt < 1e11) ∧
    0 < (simulate (init 1 71) [5]).current_mass := by
  have hd : ∀ dt ∈ ([5] : List ℝ), 0 ≤ dt ∧ dt < 1e11 := by
    intro dt hdt
    simp at hdt
    rw [hdt]
    norm_num
  exact ⟨by norm_num, hd, claim_C5 1 71 [5] (by norm_num) hd⟩

/-- Claim C6, counterexample: a mass-0.5 star is a reachable state with
positive luminosity 0.0625, yet `get_emission` returns a negative value —
the code clamps only from above (`min(1.0, ...)`), not to `[0, 1]`. -/
theorem claim_C6_cex :
    0 < (init 0.5 71).luminosity ∧ get_emission (init 0.5 71) < 0 := by
  have hl : (init 0.5 71).luminosity = 0.0625 := by
    rw [init_lum, lum_of_mass_half]
  constructor
  · rw [hl]; norm_num
  · refine emission_neg_of_small _ ?_ ?_ <;> rw [hl] <;> norm_num

/-- Claim C6, amended: `get_emission` is `min(1.0, 0.2 + log10(L)/5)`:
it never exceeds 1, but it is NOT clamped below at 0 — whenever the
luminosity is positive and below 0.1 the returned emission is negative. -/
theorem claim_C6 (s : StarPhysics) :
    get_emission s ≤ 1 ∧
    (0 < s.luminosity → s.luminosity < 1 / 10 → get_emission s < 0) := by
  constructor
  · exact le_trans (min_le_left _ _) (by norm_num)
  · intro h0 h1
    exact emission_neg_of_small s h0 h1

/-- Claim C6, witness: the amended statement evaluated on the reachable
mass-0.5 star, whose luminosity 0.0625 is positive and below 0.1. -/
theorem claim_C6_witness :
    get_emission (init 0.5 71) ≤ 1 ∧ 0 < (init 0.5 71).luminosity ∧
    (init 0.5 71).luminosity < 1 / 10 ∧ get_emission (init 0.5 71) < 0 := by
  have hl : (init 0.5 71).luminosity = 0.0625 := by
    rw [init_lum, lum_of_mass_half]
  have h0 : 0 < (init 0.5 71).luminosity := by rw [hl]; norm_num
  have h1 : (init 0.5 71).luminosity < 1 / 10 := by rw [hl]; norm_num
  exact ⟨(claim_C6 _).1, h0, h1, (claim_C6 _).2 h0 h1⟩

/-- Claim C7, counterexample: the constructor performs no mass validation
— with initialMass = -1 and fuel 0 it constructs a model whose currentMass
is -1, landing in the Red Giant stage; no `InvalidParameterError` exists
anywhere in the code.  (Fuel 0 keeps real Python on the same path: with
fuel ≤ 0.1 the Main-Sequence branch — the only place the complex-valued
`(-1.0) ** -2.5` lifetime would be compared with 0 — is never taken, so
the Python constructor completes at this input too.) -/
theorem claim_C7_cex :
    (init (-1) 0).current_mass = -1 ∧
    (init (-1) 0).stage = Stage.RedGiant := by
  constructor
  · exact init_mass (-1) 0
  · rw [init_stage]
    simp only [new_stage_rule, reduceCtorEq, if_false]
    norm_num
    try decide

/-- Claim C7, amended: construction never raises `InvalidParameterError`
(no such error exists in the code) — for every negative initialMass with
initialFuelFraction ≤ 0.1 a model is fully constructed, with
initial_mass = current_mass = initialMass, current_h2 equal to the given
fuel fraction, age 0, and stage Red Giant.  (The only failures in the
real Python are a `ZeroDivisionError` at initialMass = 0 from the
formation-time division and a `TypeError` for negative initialMass with
fuel > 0.1, where the complex main-sequence lifetime is compared with 0;
neither is the claimed `InvalidParameterError`, and both lie outside this
real-arithmetic embedding.) -/
theorem claim_C7 (m h2 : ℝ) (hm : m < 0) (hh2 : h2 ≤ 0.1) :
    (init m h2).initial_mass = m ∧ (init m h2).current_mass = m ∧
    (init m h2).current_h2 = h2 ∧ (init m h2).age = 0 ∧
    (init m h2).stage = Stage.RedGiant := by
  refine ⟨init_im m h2, init_mass m h2, init_h2 m h2, init_age m h2, ?_⟩
  rw [init_stage]
  unfold new_stage_rule
  have hft : (50000 : ℝ) * (1 / m) < 0 :=
    mul_neg_of_pos_of_neg (by norm_num) (one_div_neg.mpr hm)
  rw [if_neg (by linarith), if_neg (by linarith), if_neg (by linarith),
    if_pos ⟨hh2, by decide⟩]

/-- Claim C7, witness: the amended statement evaluated at
initialMass = -1, fuel 0. -/
theorem claim_C7_witness :
    (-1 : ℝ) < 0 ∧ (0 : ℝ) ≤ 0.1 ∧
    ((init (-1) 0).initial_mass = -1 ∧ (init (-1) 0).current_mass = -1 ∧
     (init (-1) 0).current_h2 = 0 ∧ (init (-1) 0).age = 0 ∧
     (init (-1) 0).stage = Stage.RedGiant) :=
  ⟨by norm_num, by norm_num, claim_C7 (-1) 0 (by norm_num) (by norm_num)⟩

/-- Claim C8, counterexample: `update` performs no deltaTime validation —
advancing the fresh mass-1 star by deltaTime = -5 raises nothing and
mutates the state, moving age from 0 to -5. -/
theorem claim_C8_cex :
    (update (init 1 71) (-5)).age = -5 ∧ (init 1 71).age = 0 := by
  constructor
  · rw [update_age, init_age]; norm_num
  · exact init_age 1 71

/-- Claim C8, amended: `advance` accepts every deltaTime including
negative ones and updates the state normally: the age always becomes
`age + deltaTime`, strictly decreasing for negative deltaTime; no
`InvalidArgumentError` is raised (none exists in the code). -/
theorem claim_C8 (s : StarPhysics) (dt : ℝ) (hdt : dt < 0) :
    (update s dt).age = s.age + dt ∧ (update s dt).age < s.age := by
  refine ⟨update_age s dt, ?_⟩
  rw [update_age]
  linarith

/-- Claim C8, witness: the amended statement evaluated on the fresh
mass-1 star with deltaTime = -5. -/
theorem claim_C8_witness :
    (-5 : ℝ) < 0 ∧
    ((update (init 1 71) (-5)).age = (init 1 71).age + (-5) ∧
     (update (init 1 71) (-5)).age < (init 1 71).age) :=
  ⟨by norm_num, claim_C8 _ _ (by norm_num)⟩

/-- Claim C9, counterexample: after mass 2, fuel 0 is advanced by 25000
and then by 2e11 years (both non-negative), the Red-Giant mass-loss step
has driven currentMass to -2; the state is still in the Red Giant stage,
and a further advance by 1 year INCREASES currentMass (to -2 + 2e-11) —
so currentMass is not monotonically non-increasing. -/
theorem claim_C9_cex :
    (update (update (init 2 0) 25000) 2e11).current_mass
      < (update (update (update (init 2 0) 25000) 2e11) 1).current_mass := by
  rw [update_mass (update (update (init 2 0) 25000) 2e11) 1,
    run2c_stage, run2c_mass]
  norm_num

/-- Claim C9, amended: as long as currentMass is still non-negative,
every advance with non-negative deltaTime leaves currentMass unchanged in
every stage other than RedGiant and never increases it; the monotonicity
claim fails only once a huge Red-Giant deltaTime has already made the
mass negative. -/
theorem claim_C9 (s : StarPhysics) (dt : ℝ) (hdt : 0 ≤ dt)
    (hm : 0 ≤ s.current_mass) :
    (update s dt).current_mass ≤ s.current_mass ∧
    (s.stage ≠ Stage.RedGiant →
      (update s dt).current_mass = s.current_mass) := by
  constructor
  · rw [update_mass]
    split_ifs with hc
    · nlinarith
    · exact le_refl _
  · intro h
    rw [update_mass, if_neg h]

/-- Claim C9, witness: the amended statement evaluated on the fresh
mass-1 star with deltaTime 5. -/
theorem claim_C9_witness :
    (0 : ℝ) ≤ 5 ∧ 0 ≤ (init 1 71).current_mass ∧
    ((update (init 1 71) 5).current_mass ≤ (init 1 71).current_mass ∧
     ((init 1 71).stage ≠ Stage.RedGiant →
       (update (init 1 71) 5).current_mass = (init 1 71).current_mass)) := by
  have hm : (0 : ℝ) ≤ (init 1 71).current_mass := by
    rw [init_mass]; norm_num
  exact ⟨by norm_num, hm, claim_C9 _ _ (by norm_num) hm⟩

/-- Claim C10: the main-sequence lifetime equals
`1e10 * initialMass ^ (-2.5) * (initialFuelFraction / 71)` computed from
the immutable initial parameters after any sequence of advances, and when
it is not positive the Main-Sequence expansion-factor update returns the
state unchanged instead of dividing by zero. -/
theorem claim_C10 :
    (∀ (m h2 : ℝ) (dts : List ℝ),
      get_main_sequence_lifetime (simulate (init m h2) dts)
        = 1e10 * m ^ (-2.5 : ℝ) * (h2 / 71)) ∧
    (∀ s : StarPhysics, s.stage = Stage.MainSequence →
      ¬ get_main_sequence_lifetime s > 0 →
      update_expansion_factor s = s) := by
  constructor
  · intro m h2 dts
    unfold get_main_sequence_lifetime
    rw [sim_im, sim_h2p, init_im, init_h2p]
  · intro s h hp
    exact uef_eq_ms_nonpos s h hp

/-- Claim C10, witness: evaluated on a Main-Sequence state with initial
fuel percentage 0 (lifetime 0), and on the mass-1 fuel-71 star after no
advances. -/
theorem claim_C10_witness :
    msZeroState.stage = Stage.MainSequence ∧
    ¬ get_main_sequence_lifetime msZeroState > 0 ∧
    update_expansion_factor msZeroState = msZeroState ∧
    get_main_sequence_lifetime (simulate (init 1 71) [])
      = 1e10 * (1 : ℝ) ^ (-2.5 : ℝ) * (71 / 71) := by
  have hz : get_main_sequence_lifetime msZeroState = 0 := by
    unfold get_main_sequence_lifetime msZeroState
    norm_num
  refine ⟨rfl, ?_, ?_, ?_⟩
  · rw [hz]; norm_num
  · exact claim_C10.2 msZeroState rfl (by rw [hz]; norm_num)
  · exact claim_C10.1 1 71 []

end StarSim
